import Mathlib

/-!
Verification development for the CompilerLinker tool (src/src/main.rs).

Shallow embedding conventions:
* A path is represented by its sequence of UTF-16 code units (`List Nat`,
  each unit below 2^16), i.e. by the result of `OsStr::encode_wide`.
* Bytes are `Nat` values below 256; a byte buffer is a `List Nat`.
* Machine-integer casts are explicit `% 2^w` operations.
* A Rust panic (out-of-bounds slice write) is modelled by `Option.none`;
  fallible functions returning `Result` are modelled with `Except`.
* The platform calls (CreateDirectoryW, OpenOptions::open, DeviceIoControl,
  symlink_file, hard_link, symlink_dir) are modelled by an oracle record
  `Platform` giving each call's outcome, and the calls the program performs
  are recorded in a trace of `FsAction`s.
-/

/-- Error record mirroring `struct LinkError { message: String, exit_code: i32 }`. -/
structure LinkError where
  message : String
  exit_code : Int
  deriving DecidableEq

/-- Mirrors `enum LinkType { Soft, Hard, Symbolic, Junction }`. -/
inductive LinkType where
  | Soft
  | Hard
  | Symbolic
  | Junction
  deriving DecidableEq

/-- Little-endian bytes of a `u16` value, mirroring `u16::to_le_bytes`. -/
def u16_to_le_bytes (x : Nat) : List Nat :=
  [x % 256, x / 256 % 256]

/-- Little-endian bytes of a `u32` value, mirroring `u32::to_le_bytes`. -/
def u32_to_le_bytes (x : Nat) : List Nat :=
  [x % 256, x / 256 % 256, x / 65536 % 256, x / 16777216 % 256]

/-- The `usize -> u16` truncating cast (`as u16`). -/
def usize_to_u16 (x : Nat) : Nat := x % 65536

/-- `IO_REPARSE_TAG_MOUNT_POINT: u32 = 0xA0000003` from `create_reparse_data`. -/
def IO_REPARSE_TAG_MOUNT_POINT : Nat := 0xA0000003

/-- `REPARSE_JUNCTION_DATA_BUFFER_HEADER_SIZE: usize = 8`. -/
def REPARSE_JUNCTION_DATA_BUFFER_HEADER_SIZE : Nat := 8

/-- `buffer[a..b].copy_from_slice(&src)`: overwrite positions `a..b` of
`buffer` with `src`.  Returns `none` (Rust panic) when the range is out of
bounds or `src` does not have length `b - a`. -/
def copy_into (buffer : List Nat) (a b : Nat) (src : List Nat) : Option (List Nat) :=
  if a ≤ b ∧ b ≤ buffer.length ∧ src.length = b - a then
    some (buffer.take a ++ src ++ buffer.drop b)
  else
    none

/-- The loop
`for (i, &wchar) in target.iter().take(target.len() - 1).enumerate()`
writing `wchar.to_le_bytes()` at `buffer[12 + i*2 .. 12 + i*2 + 2]`. -/
def write_path (buffer : List Nat) (i : Nat) (chars : List Nat) : Option (List Nat) :=
  match chars with
  | [] => some buffer
  | w :: rest =>
    match copy_into buffer (12 + i * 2) (12 + i * 2 + 2) (u16_to_le_bytes w) with
    | none => none
    | some b => write_path b (i + 1) rest

/-- `fn create_reparse_data(target: &[u16]) -> Result<Vec<u8>, LinkError>`.
The `Option` layer models the panics of the slice writes; the `Except`
layer is the declared `Result` error channel (never used by the code). -/
def create_reparse_data (target : List Nat) : Option (Except LinkError (List Nat)) :=
  let target_len := (target.length - 1) * 2
  let reparse_data_len := REPARSE_JUNCTION_DATA_BUFFER_HEADER_SIZE + target_len * 2 + 4
  let buffer := List.replicate (reparse_data_len + 8) 0
  (copy_into buffer 0 4 (u32_to_le_bytes IO_REPARSE_TAG_MOUNT_POINT)).bind fun b1 =>
  (copy_into b1 4 6 (u16_to_le_bytes (usize_to_u16 reparse_data_len))).bind fun b2 =>
  (copy_into b2 6 8 [0, 0]).bind fun b3 =>
  (copy_into b3 8 10 (u16_to_le_bytes 0)).bind fun b4 =>
  (copy_into b4 10 12 (u16_to_le_bytes (usize_to_u16 target_len))).bind fun b5 =>
  (write_path b5 0 (target.take (target.length - 1))).bind fun b6 =>
  some (Except.ok b6)

/-- `fn utf16_encode`: `encode_wide` of the path followed by a pushed null
terminator.  A path being already represented by its wide units, the
function appends the terminator. -/
def utf16_encode (s : List Nat) : List Nat := s ++ [0]

/-- UTF-16LE byte serialisation of a sequence of wide characters (the bytes
the loop of `create_reparse_data` writes). -/
def wide_bytes : List Nat → List Nat
  | [] => []
  | w :: rest => u16_to_le_bytes w ++ wide_bytes rest

/-- Extract the buffer from a `create_reparse_data` result. -/
def getBuf : Option (Except LinkError (List Nat)) → List Nat
  | some (Except.ok b) => b
  | _ => []

/-- `true` iff `create_reparse_data` returned through its `Ok` branch. -/
def is_ok_result : Option (Except LinkError (List Nat)) → Bool
  | some (Except.ok _) => true
  | _ => false

/-- Byte at index `i` of a buffer (0 when out of range). -/
def byteAt (buf : List Nat) (i : Nat) : Nat := buf.getD i 0

/-- Little-endian 16-bit field at offset `i`. -/
def read_u16 (buf : List Nat) (i : Nat) : Nat :=
  byteAt buf i + 256 * byteAt buf (i + 1)

/-- Little-endian 32-bit field at offset `i`. -/
def read_u32 (buf : List Nat) (i : Nat) : Nat :=
  byteAt buf i + 256 * byteAt buf (i + 1) + 65536 * byteAt buf (i + 2)
    + 16777216 * byteAt buf (i + 3)

/-- Modelled from the spec: decoding a little-endian byte region back to
wide characters ("decoding the payload substitute-name region back to wide
characters"), inverse of the byte serialisation. -/
def decode_wide : List Nat → List Nat
  | [] => []
  | [_] => []
  | a :: b :: rest => (a + 256 * b) :: decode_wide rest

/-- The substitute-name region of a reparse buffer: the bytes following the
8-byte reparse header and the 4 bytes of mount-point offset/length fields,
of the length declared in the substitute-name-length field (bytes 10..12). -/
def subst_region (buf : List Nat) : List Nat :=
  (buf.drop 12).take (read_u16 buf 10)

-- ### List helper lemmas

lemma take_len_append (l r : List Nat) : (l ++ r).take l.length = l := by
  induction l with
  | nil => simp
  | cons a t ih => simp [ih]

lemma drop_len_add_append (l r : List Nat) (k : Nat) :
    (l ++ r).drop (l.length + k) = r.drop k := by
  induction l with
  | nil => simp
  | cons a t ih =>
    have h : (a :: t).length + k = (t.length + k) + 1 := by simp; omega
    simp only [h, List.cons_append, List.drop_succ_cons]
    exact ih

lemma drop_repl (k m : Nat) :
    (List.replicate m (0 : Nat)).drop k = List.replicate (m - k) 0 := by
  induction k generalizing m with
  | zero => simp
  | succ k ih =>
    cases m with
    | zero => simp
    | succ m => simp [List.replicate_succ, ih]

lemma wide_bytes_length (l : List Nat) : (wide_bytes l).length = 2 * l.length := by
  induction l with
  | nil => simp [wide_bytes]
  | cons w rest ih => simp [wide_bytes, u16_to_le_bytes, ih]; omega

/-- A successful in-bounds `copy_into` at the boundary between an already
written prefix `done` and a zero-filled remainder. -/
lemma copy_into_at (buf done src : List Nat) (a b m rest : Nat)
    (hbuf : buf = done ++ List.replicate m 0)
    (ha : a = done.length) (hb : b = a + src.length)
    (hm : m = src.length + rest) :
    copy_into buf a b src = some (done ++ src ++ List.replicate rest 0) := by
  subst hbuf ha hb hm
  have hcond : done.length ≤ done.length + src.length ∧
      done.length + src.length ≤ (done ++ List.replicate (src.length + rest) 0).length ∧
      src.length = done.length + src.length - done.length := by
    refine ⟨by omega, ?_, by omega⟩
    simp [List.length_append, List.length_replicate]
  rw [copy_into, if_pos hcond]
  congr 1
  rw [take_len_append, drop_len_add_append, drop_repl]
  simp

/-- Shape of the loop output: writing `chars` after a 12 + 2i byte prefix. -/
lemma write_path_shape (chars : List Nat) : ∀ (done : List Nat) (i m rest : Nat),
    done.length = 12 + i * 2 → m = 2 * chars.length + rest →
    write_path (done ++ List.replicate m 0) i chars
      = some (done ++ wide_bytes chars ++ List.replicate rest 0) := by
  induction chars with
  | nil =>
    intro done i m rest hd hm
    simp [write_path, wide_bytes, hm]
  | cons w tail ih =>
    intro done i m rest hd hm
    have hm' : m = 2 + (2 * tail.length + rest) := by
      simp only [List.length_cons] at hm; omega
    rw [write_path]
    rw [copy_into_at (done ++ List.replicate m 0) done (u16_to_le_bytes w)
      (12 + i * 2) (12 + i * 2 + 2) m (2 * tail.length + rest) rfl
      hd.symm (by simp [u16_to_le_bytes])
      (by rw [hm']; simp [u16_to_le_bytes])]
    have ih' := ih (done ++ u16_to_le_bytes w) (i + 1) (2 * tail.length + rest) rest
      (by simp [u16_to_le_bytes, hd]; omega) rfl
    exact ih'.trans (by simp [wide_bytes, List.append_assoc])

/-- Normal form of the buffer built by `create_reparse_data` on a target of
`n` wide characters followed by the null terminator. -/
theorem create_reparse_data_shape (t : List Nat) (n : Nat) (ht : t.length = n + 1) :
    create_reparse_data t = some (Except.ok (
      [3, 0, 0, 160]
      ++ u16_to_le_bytes ((12 + 4 * n) % 65536)
      ++ [0, 0] ++ [0, 0]
      ++ u16_to_le_bytes ((2 * n) % 65536)
      ++ wide_bytes (t.take n)
      ++ List.replicate (8 + 2 * n) 0)) := by
  have htl : t.length - 1 = n := by omega
  have htag : u32_to_le_bytes IO_REPARSE_TAG_MOUNT_POINT = [3, 0, 0, 160] := by
    decide
  simp only [create_reparse_data, REPARSE_JUNCTION_DATA_BUFFER_HEADER_SIZE, htl, htag]
  have hbuf : List.replicate (8 + n * 2 * 2 + 4 + 8) (0 : Nat)
      = ([] : List Nat) ++ List.replicate (8 + n * 2 * 2 + 4 + 8) 0 := by simp
  rw [hbuf]
  rw [copy_into_at _ ([] : List Nat) [3, 0, 0, 160] 0 4 (8 + n * 2 * 2 + 4 + 8)
    (16 + 4 * n) rfl rfl (by simp) (by simp; try omega)]
  simp only [Option.some_bind, List.nil_append]
  rw [copy_into_at _ [3, 0, 0, 160] (u16_to_le_bytes (usize_to_u16 (8 + n * 2 * 2 + 4)))
    4 6 (16 + 4 * n) (14 + 4 * n) rfl (by simp)
    (by simp [u16_to_le_bytes]) (by simp [u16_to_le_bytes]; try omega)]
  simp only [Option.some_bind]
  rw [copy_into_at _ ([3, 0, 0, 160] ++ u16_to_le_bytes (usize_to_u16 (8 + n * 2 * 2 + 4)))
    [0, 0] 6 8 (14 + 4 * n) (12 + 4 * n)
    rfl (by simp [u16_to_le_bytes]) (by simp) (by simp; try omega)]
  simp only [Option.some_bind]
  rw [copy_into_at _ ([3, 0, 0, 160] ++ u16_to_le_bytes (usize_to_u16 (8 + n * 2 * 2 + 4))
      ++ [0, 0]) (u16_to_le_bytes 0) 8 10 (12 + 4 * n) (10 + 4 * n)
    rfl (by simp [u16_to_le_bytes]) (by simp [u16_to_le_bytes])
    (by simp [u16_to_le_bytes]; try omega)]
  simp only [Option.some_bind]
  rw [copy_into_at _ ([3, 0, 0, 160] ++ u16_to_le_bytes (usize_to_u16 (8 + n * 2 * 2 + 4))
      ++ [0, 0] ++ u16_to_le_bytes 0) (u16_to_le_bytes (usize_to_u16 (n * 2))) 10 12
    (10 + 4 * n) (8 + 4 * n)
    rfl (by simp [u16_to_le_bytes]) (by simp [u16_to_le_bytes])
    (by simp [u16_to_le_bytes]; try omega)]
  simp only [Option.some_bind]
  have htake : (t.take n).length = n := by
    simp [List.length_take, ht]
  rw [write_path_shape (t.take n)
    ([3, 0, 0, 160] ++ u16_to_le_bytes (usize_to_u16 (8 + n * 2 * 2 + 4))
      ++ [0, 0] ++ u16_to_le_bytes 0 ++ u16_to_le_bytes (usize_to_u16 (n * 2)))
    0 (8 + 4 * n) (8 + 2 * n)
    (by simp [u16_to_le_bytes]) (by rw [htake]; omega)]
  simp only [Option.some_bind]
  have h1 : usize_to_u16 (8 + n * 2 * 2 + 4) = (12 + 4 * n) % 65536 := by
    simp only [usize_to_u16]; omega
  have h2 : usize_to_u16 (n * 2) = 2 * n % 65536 := by
    simp only [usize_to_u16]; omega
  have h0 : u16_to_le_bytes 0 = [0, 0] := by decide
  rw [h1, h2, h0]

-- ### Platform-call oracle and junction / CLI model

/-- Outcomes of the platform calls the tool can make during one invocation.
Each external call is performed at most once, so a fixed outcome per call
models the platform.  `Except.error e` carries the platform's error text
(the text `GetLastError`/`io::Error` would describe); the code may or may
not incorporate it in its message. -/
structure Platform where
  windows : Bool
  create_dir_result : Except String Unit
  open_result : Except String Unit
  device_result : Except String Unit
  symlink_file_result : Except String Unit
  hard_link_result : Except String Unit
  symlink_dir_result : Except String Unit

/-- Filesystem calls performed by the program, in order, with their results.
`removeDir` is never emitted by the code: it has no directory-removal call. -/
inductive FsAction where
  | createDir (path : List Nat) (ok : Bool)
  | openDir (path : List Nat) (ok : Bool)
  | setReparse (ok : Bool)
  | removeDir (path : List Nat)
  | symlinkFile (ok : Bool)
  | hardLink (ok : Bool)
  | symlinkDir (ok : Bool)
  deriving DecidableEq

/-- `fn create_junction(target, link) -> Result<(), LinkError>` together with
the trace of filesystem calls it performs.  `none` models a panic. -/
def create_junction (target link : List Nat) (p : Platform) :
    Option (Except LinkError Unit) × List FsAction :=
  let link_wide := utf16_encode link
  let target_wide := utf16_encode target
  match p.create_dir_result with
  | Except.error _ =>
      (some (Except.error ⟨"Failed to create directory for junction point", 2⟩),
       [FsAction.createDir link_wide false])
  | Except.ok _ =>
      match create_reparse_data target_wide with
      | none => (none, [FsAction.createDir link_wide true])
      | some (Except.error e) =>
          (some (Except.error e), [FsAction.createDir link_wide true])
      | some (Except.ok _reparse_data) =>
          match p.open_result with
          | Except.error e =>
              (some (Except.error ⟨"Failed to open junction directory: " ++ e, 2⟩),
               [FsAction.createDir link_wide true, FsAction.openDir link false])
          | Except.ok _ =>
              match p.device_result with
              | Except.error _ =>
                  (some (Except.error ⟨"Failed to set reparse point for junction", 2⟩),
                   [FsAction.createDir link_wide true, FsAction.openDir link true,
                    FsAction.setReparse false])
              | Except.ok _ =>
                  (some (Except.ok ()),
                   [FsAction.createDir link_wide true, FsAction.openDir link true,
                    FsAction.setReparse true])

/-- Command-line options record mirroring `struct CliOpts`. -/
structure CliOpts where
  src : List Nat
  dst : List Nat
  soft : Bool
  hard : Bool
  symbolic : Bool
  junction : Bool

/-- `[opts.soft, opts.hard, opts.symbolic, opts.junction].iter().filter(..).count()`. -/
def flag_count (o : CliOpts) : Nat :=
  ([o.soft, o.hard, o.symbolic, o.junction].filter (fun b => b)).length

/-- `fn parse_link_type(opts: &CliOpts) -> Result<LinkType, LinkError>`. -/
def parse_link_type (o : CliOpts) : Except LinkError LinkType :=
  match flag_count o with
  | 0 => Except.error
      ⟨"No link type specified. Use --soft, --hard, --symbolic, or --junction.", 1⟩
  | 1 =>
      if o.soft then Except.ok LinkType.Soft
      else if o.hard then Except.ok LinkType.Hard
      else if o.symbolic then Except.ok LinkType.Symbolic
      else Except.ok LinkType.Junction
  | _ => Except.error ⟨"Multiple link types specified. Choose only one.", 1⟩

/-- `fn create_link(link_type, src, dst) -> Result<(), LinkError>` with its
trace.  The `cfg(windows)` / `cfg(not(windows))` split is modelled by
`p.windows`. -/
def create_link (link_type : LinkType) (src dst : List Nat) (p : Platform) :
    Option (Except LinkError Unit) × List FsAction :=
  if p.windows then
    match link_type with
    | LinkType.Junction => create_junction dst src p
    | LinkType.Symbolic =>
        match p.symlink_file_result with
        | Except.error e =>
            (some (Except.error ⟨"Failed to create symbolic link: " ++ e, 3⟩),
             [FsAction.symlinkFile false])
        | Except.ok _ => (some (Except.ok ()), [FsAction.symlinkFile true])
    | LinkType.Hard =>
        match p.hard_link_result with
        | Except.error e =>
            (some (Except.error ⟨"Failed to create hard link: " ++ e, 4⟩),
             [FsAction.hardLink false])
        | Except.ok _ => (some (Except.ok ()), [FsAction.hardLink true])
    | LinkType.Soft =>
        match p.symlink_dir_result with
        | Except.error e =>
            (some (Except.error ⟨"Failed to create soft link: " ++ e, 5⟩),
             [FsAction.symlinkDir false])
        | Except.ok _ => (some (Except.ok ()), [FsAction.symlinkDir true])
  else
    (some (Except.error ⟨"This utility only works on Windows.", 7⟩), [])

/-- `fn main`: parse the link type, run `create_link`, exit with the error's
code on failure and 0 on success.  Returns the process exit code and the
trace of filesystem calls. -/
def main_run (o : CliOpts) (p : Platform) : Option Int × List FsAction :=
  match parse_link_type o with
  | Except.error e => (some e.exit_code, [])
  | Except.ok lt =>
      match create_link lt o.src o.dst p with
      | (none, tr) => (none, tr)
      | (some (Except.error e), tr) => (some e.exit_code, tr)
      | (some (Except.ok _), tr) => (some 0, tr)

/-- The process exit code of an invocation. -/
def main_exit (o : CliOpts) (p : Platform) : Option Int := (main_run o p).1

-- ### Substring test (for "message includes the platform error text")

/-- `prefix_matches n h`: the characters of `n` start the list `h`. -/
def prefix_matches : List Char → List Char → Bool
  | [], _ => true
  | _ :: _, [] => false
  | a :: as, b :: bs => a == b && prefix_matches as bs

/-- `has_substring n h`: the characters of `n` occur contiguously in `h`. -/
def has_substring : List Char → List Char → Bool
  | needle, [] => prefix_matches needle []
  | needle, c :: rest => prefix_matches needle (c :: rest) || has_substring needle rest

lemma prefix_matches_refl (l : List Char) : prefix_matches l l = true := by
  induction l with
  | nil => rfl
  | cons a t ih => simp [prefix_matches, ih]

lemma has_substring_self (n : List Char) : has_substring n n = true := by
  cases n with
  | nil => rfl
  | cons c t => simp [has_substring, prefix_matches_refl]

lemma has_substring_append_left (l n : List Char) :
    has_substring n (l ++ n) = true := by
  induction l with
  | nil => simpa using has_substring_self n
  | cons c t ih => simp [has_substring, ih]

lemma string_data_append (s t : String) : (s ++ t).data = s.data ++ t.data := rfl

-- ### Bridging lemmas

lemma getBuf_ok (b : List Nat) : getBuf (some (Except.ok b)) = b := rfl

/-- Field values of the normal-form buffer. -/
lemma fields_of_shape (n : Nat) (pp : List Nat) :
    read_u16 ([3, 0, 0, 160] ++ u16_to_le_bytes ((12 + 4 * n) % 65536) ++ [0, 0] ++ [0, 0]
      ++ u16_to_le_bytes ((2 * n) % 65536) ++ pp ++ List.replicate (8 + 2 * n) 0) 4
      = (12 + 4 * n) % 65536
    ∧ read_u16 ([3, 0, 0, 160] ++ u16_to_le_bytes ((12 + 4 * n) % 65536) ++ [0, 0] ++ [0, 0]
      ++ u16_to_le_bytes ((2 * n) % 65536) ++ pp ++ List.replicate (8 + 2 * n) 0) 10
      = (2 * n) % 65536
    ∧ read_u16 ([3, 0, 0, 160] ++ u16_to_le_bytes ((12 + 4 * n) % 65536) ++ [0, 0] ++ [0, 0]
      ++ u16_to_le_bytes ((2 * n) % 65536) ++ pp ++ List.replicate (8 + 2 * n) 0) 6 = 0
    ∧ read_u16 ([3, 0, 0, 160] ++ u16_to_le_bytes ((12 + 4 * n) % 65536) ++ [0, 0] ++ [0, 0]
      ++ u16_to_le_bytes ((2 * n) % 65536) ++ pp ++ List.replicate (8 + 2 * n) 0) 8 = 0
    ∧ read_u32 ([3, 0, 0, 160] ++ u16_to_le_bytes ((12 + 4 * n) % 65536) ++ [0, 0] ++ [0, 0]
      ++ u16_to_le_bytes ((2 * n) % 65536) ++ pp ++ List.replicate (8 + 2 * n) 0) 0
      = 2684354563
    ∧ ([3, 0, 0, 160] ++ u16_to_le_bytes ((12 + 4 * n) % 65536) ++ [0, 0] ++ [0, 0]
      ++ u16_to_le_bytes ((2 * n) % 65536) ++ pp ++ List.replicate (8 + 2 * n) 0).drop 12
      = pp ++ List.replicate (8 + 2 * n) 0 := by
  have hc : ([3, 0, 0, 160] : List Nat) ++ u16_to_le_bytes ((12 + 4 * n) % 65536)
      ++ [0, 0] ++ [0, 0] ++ u16_to_le_bytes ((2 * n) % 65536) ++ pp
      ++ List.replicate (8 + 2 * n) 0
      = 3 :: 0 :: 0 :: 160 :: ((12 + 4 * n) % 65536 % 256)
        :: ((12 + 4 * n) % 65536 / 256 % 256) :: 0 :: 0 :: 0 :: 0
        :: ((2 * n) % 65536 % 256) :: ((2 * n) % 65536 / 256 % 256)
        :: (pp ++ List.replicate (8 + 2 * n) 0) := by
    simp [u16_to_le_bytes]
  rw [hc]
  refine ⟨?_, ?_, ?_, ?_, ?_, ?_⟩
  · show (12 + 4 * n) % 65536 % 256 + 256 * ((12 + 4 * n) % 65536 / 256 % 256)
      = (12 + 4 * n) % 65536
    omega
  · show (2 * n) % 65536 % 256 + 256 * ((2 * n) % 65536 / 256 % 256) = (2 * n) % 65536
    omega
  · show (0 : Nat) + 256 * 0 = 0
    rfl
  · show (0 : Nat) + 256 * 0 = 0
    rfl
  · show (3 : Nat) + 256 * 0 + 65536 * 0 + 16777216 * 160 = 2684354563
    norm_num
  · rfl

/-- `create_reparse_data` on an encoded path: always `Ok`, explicit shape. -/
lemma crd_encode_shape (t : List Nat) :
    create_reparse_data (utf16_encode t) = some (Except.ok (
      [3, 0, 0, 160]
      ++ u16_to_le_bytes ((12 + 4 * t.length) % 65536)
      ++ [0, 0] ++ [0, 0]
      ++ u16_to_le_bytes ((2 * t.length) % 65536)
      ++ wide_bytes t
      ++ List.replicate (8 + 2 * t.length) 0)) := by
  have h := create_reparse_data_shape (utf16_encode t) t.length (by simp [utf16_encode])
  have htake : (utf16_encode t).take t.length = t := take_len_append t [0]
  rwa [htake] at h

lemma decode_wide_bytes (l : List Nat) (h : ∀ w ∈ l, w < 65536) :
    decode_wide (wide_bytes l) = l := by
  induction l with
  | nil => rfl
  | cons w rest ih =>
    have hw : w < 65536 := h w (by simp)
    have hrest : ∀ x ∈ rest, x < 65536 := fun x hx => h x (by simp [hx])
    have hwb : wide_bytes (w :: rest)
        = (w % 256) :: (w / 256 % 256) :: wide_bytes rest := by
      simp [wide_bytes, u16_to_le_bytes]
    rw [hwb]
    show (w % 256 + 256 * (w / 256 % 256)) :: decode_wide (wide_bytes rest) = w :: rest
    rw [ih hrest]
    congr 1
    omega

lemma getLast_concat (l : List Nat) (a : Nat) : (l ++ [a]).getLast? = some a := by
  induction l with
  | nil => rfl
  | cons x t ih =>
    rw [List.cons_append, List.getLast?_cons, ih]
    rfl

-- ### Junction-path characterizations

lemma cj_dir_fail (t l : List Nat) (p : Platform) (e : String)
    (h : p.create_dir_result = Except.error e) :
    create_junction t l p
      = (some (Except.error ⟨"Failed to create directory for junction point", 2⟩),
         [FsAction.createDir (utf16_encode l) false]) := by
  simp only [create_junction, h]

lemma cj_open_fail (t l : List Nat) (p : Platform) (e : String)
    (h1 : p.create_dir_result = Except.ok ())
    (h2 : p.open_result = Except.error e) :
    create_junction t l p
      = (some (Except.error ⟨"Failed to open junction directory: " ++ e, 2⟩),
         [FsAction.createDir (utf16_encode l) true, FsAction.openDir l false]) := by
  simp only [create_junction, h1, h2, crd_encode_shape]

lemma cj_device_fail (t l : List Nat) (p : Platform) (e : String)
    (h1 : p.create_dir_result = Except.ok ())
    (h2 : p.open_result = Except.ok ())
    (h3 : p.device_result = Except.error e) :
    create_junction t l p
      = (some (Except.error ⟨"Failed to set reparse point for junction", 2⟩),
         [FsAction.createDir (utf16_encode l) true, FsAction.openDir l true,
          FsAction.setReparse false]) := by
  simp only [create_junction, h1, h2, h3, crd_encode_shape]

lemma cj_all_ok (t l : List Nat) (p : Platform)
    (h1 : p.create_dir_result = Except.ok ())
    (h2 : p.open_result = Except.ok ())
    (h3 : p.device_result = Except.ok ()) :
    create_junction t l p
      = (some (Except.ok ()),
         [FsAction.createDir (utf16_encode l) true, FsAction.openDir l true,
          FsAction.setReparse true]) := by
  simp only [create_junction, h1, h2, h3, crd_encode_shape]

-- ### CLI-layer lemmas

lemma main_run_flags (o : CliOpts) (p : Platform) (h : flag_count o ≠ 1) :
    main_run o p = (some 1, []) := by
  rcases hc : flag_count o with _ | m
  · simp [main_run, parse_link_type, hc]
  · rcases m with _ | k
    · exact absurd hc h
    · simp [main_run, parse_link_type, hc]

lemma parse_of_soft (o : CliOpts) (h1 : flag_count o = 1) (hs : o.soft = true) :
    parse_link_type o = Except.ok LinkType.Soft := by
  simp [parse_link_type, h1, hs]

lemma parse_of_hard (o : CliOpts) (h1 : flag_count o = 1) (hh : o.hard = true) :
    parse_link_type o = Except.ok LinkType.Hard := by
  rcases o with ⟨src, dst, s, ha, sy, j⟩
  cases s <;> cases ha <;> cases sy <;> cases j <;>
    simp_all [flag_count, parse_link_type]

lemma parse_of_symbolic (o : CliOpts) (h1 : flag_count o = 1) (hy : o.symbolic = true) :
    parse_link_type o = Except.ok LinkType.Symbolic := by
  rcases o with ⟨src, dst, s, ha, sy, j⟩
  cases s <;> cases ha <;> cases sy <;> cases j <;>
    simp_all [flag_count, parse_link_type]

lemma parse_of_junction (o : CliOpts) (h1 : flag_count o = 1) (hj : o.junction = true) :
    parse_link_type o = Except.ok LinkType.Junction := by
  rcases o with ⟨src, dst, s, ha, sy, j⟩
  cases s <;> cases ha <;> cases sy <;> cases j <;>
    simp_all [flag_count, parse_link_type]

lemma parse_ok_exists (o : CliOpts) (h1 : flag_count o = 1) :
    ∃ lt, parse_link_type o = Except.ok lt := by
  simp only [parse_link_type, h1]
  split_ifs <;> exact ⟨_, rfl⟩

-- ### Claim theorems: reparse buffer

/-- Claim C9: `create_reparse_data` is total over its declared error type.
For every null-terminated wide-string input (length n+1, last unit 0) it
returns `Ok` with a buffer and never `Err`; the u16 length fields hold the
computed sizes reduced modulo 2^16 rather than signalling an error. -/
theorem c9_total_ok (t : List Nat) (n : Nat) (ht : t.length = n + 1)
    (hterm : t.getLast? = some 0) :
    is_ok_result (create_reparse_data t) = true
    ∧ read_u16 (getBuf (create_reparse_data t)) 4 = (12 + 4 * n) % 65536
    ∧ read_u16 (getBuf (create_reparse_data t)) 10 = (2 * n) % 65536 := by
  have hs := create_reparse_data_shape t n ht
  obtain ⟨f4, f10, -, -, -, -⟩ := fields_of_shape n (wide_bytes (t.take n))
  exact ⟨by rw [hs]; rfl, by rw [hs]; exact f4, by rw [hs]; exact f10⟩

/-- Witness for C9 at a 40000-character target (fields wrap modulo 2^16). -/
theorem c9_total_ok_witness :
    (List.replicate 40000 68 ++ [0] : List Nat).length = 40000 + 1
    ∧ (List.replicate 40000 68 ++ [0] : List Nat).getLast? = some 0
    ∧ is_ok_result (create_reparse_data (List.replicate 40000 68 ++ [0])) = true
    ∧ read_u16 (getBuf (create_reparse_data (List.replicate 40000 68 ++ [0]))) 4 = 28940
    ∧ read_u16 (getBuf (create_reparse_data (List.replicate 40000 68 ++ [0]))) 10 = 14464 := by
  have hlen : (List.replicate 40000 68 ++ [0] : List Nat).length = 40000 + 1 := by
    rw [List.length_append, List.length_replicate, List.length_cons, List.length_nil]
  have hlast : (List.replicate 40000 68 ++ [0] : List Nat).getLast? = some 0 :=
    getLast_concat _ 0
  have h := c9_total_ok (List.replicate 40000 68 ++ [0]) 40000 hlen hlast
  refine ⟨hlen, hlast, h.1, ?_, ?_⟩
  · rw [h.2.1]
  · rw [h.2.2]

/-- Claim C1 (code bug, evaluated at the failing input): for the
one-character target "A" (wide units [65, 0], so n = 1), the declared
data-length field of the buffer is 16 = 8 + (n*2)*2 + 4, not the value
8 + n*2 + 4 = 14 required by the claim: the code multiplies the
already-byte-valued `target_len` by 2 a second time. -/
theorem c1_code_divergence :
    read_u16 (getBuf (create_reparse_data (utf16_encode [65]))) 4 = 16
    ∧ 8 + 1 * 2 + 4 = 14
    ∧ (16 : Nat) ≠ 14 := by
  refine ⟨?_, by norm_num, by norm_num⟩
  decide

/-- Counterexample to claim C2: at a target of 32768 wide characters
(encoded byte length 65536 > 65535) construction still succeeds — there is
no `TargetPathTooLong` failure in the code. -/
theorem c2_counterexample :
    65535 < 2 * ((utf16_encode (List.replicate 32768 65)).length - 1)
    ∧ is_ok_result (create_reparse_data (utf16_encode (List.replicate 32768 65))) = true := by
  constructor
  · have hl : (utf16_encode (List.replicate 32768 (65 : Nat))).length = 32769 := by
      simp only [utf16_encode]
      rw [List.length_append, List.length_replicate, List.length_cons, List.length_nil]
    rw [hl]
    norm_num
  · rw [crd_encode_shape]; rfl

/-- Claim C2 as amended: for every target whose encoded byte length
exceeds 65535, construction succeeds and the 16-bit data-length and
substitute-name-length fields wrap modulo 2^16. -/
theorem c2_amended (s : List Nat) (h : 65535 < 2 * s.length) :
    is_ok_result (create_reparse_data (utf16_encode s)) = true
    ∧ read_u16 (getBuf (create_reparse_data (utf16_encode s))) 4
        = (12 + 4 * s.length) % 65536
    ∧ read_u16 (getBuf (create_reparse_data (utf16_encode s))) 10
        = (2 * s.length) % 65536 := by
  have hs := crd_encode_shape s
  obtain ⟨f4, f10, -, -, -, -⟩ := fields_of_shape s.length (wide_bytes s)
  exact ⟨by rw [hs]; rfl, by rw [hs]; exact f4, by rw [hs]; exact f10⟩

/-- Witness for amended C2 at the 32768-character target: data-length
field wraps to 12, substitute-name-length field wraps to 0. -/
theorem c2_amended_witness :
    65535 < 2 * (List.replicate 32768 (65 : Nat)).length
    ∧ is_ok_result (create_reparse_data (utf16_encode (List.replicate 32768 65))) = true
    ∧ read_u16 (getBuf (create_reparse_data (utf16_encode (List.replicate 32768 65)))) 4 = 12
    ∧ read_u16 (getBuf (create_reparse_data (utf16_encode (List.replicate 32768 65)))) 10 = 0 := by
  have hlen : 65535 < 2 * (List.replicate 32768 (65 : Nat)).length := by
    rw [List.length_replicate]; norm_num
  have h := c2_amended (List.replicate 32768 65) hlen
  refine ⟨hlen, h.1, ?_, ?_⟩
  · rw [h.2.1, List.length_replicate]
  · rw [h.2.2, List.length_replicate]

/-- Counterexample to claim C3: at a target path of 32768 wide characters
the substitute-name-length field wraps to 0, so decoding the declared
substitute-name region yields the empty sequence, not the target. -/
theorem c3_counterexample :
    decode_wide (subst_region (getBuf (create_reparse_data
      (utf16_encode (List.replicate 32768 66))))) = []
    ∧ List.replicate 32768 (66 : Nat) ≠ [] := by
  refine ⟨?_, ?_⟩
  · have f10 := (fields_of_shape (List.replicate 32768 (66 : Nat)).length
      (wide_bytes (List.replicate 32768 66))).2.1
    simp only [subst_region, crd_encode_shape, getBuf_ok]
    rw [f10]
    rw [show (2 * (List.replicate 32768 (66 : Nat)).length) % 65536 = 0 by
      rw [List.length_replicate]]
    rw [List.take_zero]
    rfl
  · intro hcon
    have h' := congrArg List.length hcon
    rw [List.length_replicate, List.length_nil] at h'
    exact absurd h' (by norm_num)

/-- Claim C3 as amended: for every target path whose encoded byte length
(excluding the terminator) is at most 65535, decoding the substitute-name
region of the constructed buffer yields exactly the target's wide
encoding, independent of any filesystem call. -/
theorem c3_amended (s : List Nat) (hw : ∀ w ∈ s, w < 65536)
    (hlen : 2 * s.length ≤ 65535) :
    decode_wide (subst_region (getBuf (create_reparse_data (utf16_encode s)))) = s := by
  obtain ⟨-, f10, -, -, -, fd⟩ := fields_of_shape s.length (wide_bytes s)
  simp only [subst_region, crd_encode_shape, getBuf_ok]
  rw [f10, fd]
  rw [Nat.mod_eq_of_lt (by omega : 2 * s.length < 65536)]
  rw [show 2 * s.length = (wide_bytes s).length from (wide_bytes_length s).symm,
    take_len_append]
  exact decode_wide_bytes s hw

/-- Witness for amended C3 at the two-character target [72, 105]. -/
theorem c3_amended_witness :
    (∀ w ∈ ([72, 105] : List Nat), w < 65536)
    ∧ 2 * ([72, 105] : List Nat).length ≤ 65535
    ∧ decode_wide (subst_region (getBuf (create_reparse_data
        (utf16_encode [72, 105])))) = [72, 105] :=
  ⟨by decide, by decide, c3_amended [72, 105] (by decide) (by decide)⟩

/-- Counterexample to claim C4: at a target path of 32768 wide characters
the substitute-name-length field is 0, not the encoded byte length 65536. -/
theorem c4_counterexample :
    read_u16 (getBuf (create_reparse_data (utf16_encode (List.replicate 32768 67)))) 10 = 0
    ∧ 2 * (List.replicate 32768 (67 : Nat)).length = 65536
    ∧ (0 : Nat) ≠ 65536 := by
  refine ⟨?_, by rw [List.length_replicate], by norm_num⟩
  have f10 := (fields_of_shape (List.replicate 32768 (67 : Nat)).length
    (wide_bytes (List.replicate 32768 67))).2.1
  simp only [crd_encode_shape, getBuf_ok]
  rw [f10, List.length_replicate]

/-- Claim C4 as amended: for every target path the buffer has tag bytes
0xA0000003 little-endian at 0..4, reserved field 0 at 6..8,
substitute-name offset 0 at 8..10, and substitute-name length equal to
the encoded byte length of the target (excluding terminator) reduced
modulo 2^16 at 10..12. -/
theorem c4_amended (s : List Nat) :
    read_u32 (getBuf (create_reparse_data (utf16_encode s))) 0 = 0xA0000003
    ∧ read_u16 (getBuf (create_reparse_data (utf16_encode s))) 6 = 0
    ∧ read_u16 (getBuf (create_reparse_data (utf16_encode s))) 8 = 0
    ∧ read_u16 (getBuf (create_reparse_data (utf16_encode s))) 10
        = (2 * s.length) % 65536 := by
  have hs := crd_encode_shape s
  obtain ⟨-, f10, f6, f8, f0, -⟩ := fields_of_shape s.length (wide_bytes s)
  exact ⟨by rw [hs]; exact f0, by rw [hs]; exact f6,
    by rw [hs]; exact f8, by rw [hs]; exact f10⟩

/-- Claim C10: `utf16_encode` always yields length ≥ 1 with last element 0;
consequently the `target.len() - 1` subtraction in `create_reparse_data`
does not underflow, no slice write panics (the result is `some`), and the
buffer covers all written ranges (its length is 20 + 4n ≥ 12 + 2n). -/
theorem c10_encode_safety (s : List Nat) :
    (utf16_encode s).length = s.length + 1
    ∧ (utf16_encode s).getLast? = some 0
    ∧ (utf16_encode s).length - 1 = s.length
    ∧ (create_reparse_data (utf16_encode s)).isSome = true
    ∧ (getBuf (create_reparse_data (utf16_encode s))).length = 20 + 4 * s.length
    ∧ 12 + 2 * s.length ≤ (getBuf (create_reparse_data (utf16_encode s))).length := by
  have hs := crd_encode_shape s
  have hlen : (getBuf (create_reparse_data (utf16_encode s))).length
      = 20 + 4 * s.length := by
    rw [hs, getBuf_ok]
    simp [u16_to_le_bytes, wide_bytes_length]
    omega
  refine ⟨by simp [utf16_encode], getLast_concat s 0, by simp [utf16_encode],
    by rw [hs]; rfl, hlen, by rw [hlen]; omega⟩

-- ### Claim theorems: junction path and CLI

/-- Counterexample to claim C5: when directory creation fails with platform
error text "os error 5", the reported message is the fixed string
"Failed to create directory for junction point", which does not include
the platform error text (the code never reads `GetLastError`). -/
theorem c5_counterexample :
    (create_junction [100] [99]
      (⟨true, Except.error "os error 5", Except.ok (), Except.ok (),
        Except.ok (), Except.ok (), Except.ok ()⟩ : Platform)).1
      = some (Except.error ⟨"Failed to create directory for junction point", 2⟩)
    ∧ has_substring ("os error 5".data)
        ("Failed to create directory for junction point".data) = false := by
  refine ⟨?_, by decide⟩
  rw [cj_dir_fail [100] [99] _ "os error 5" rfl]

/-- Claim C5 as amended: every junction-path failure is surfaced as a
returned error with exit code 2 and a human-readable message, with no
fallback to another link kind; the handle-open failure message includes
the originating platform error text, while the directory-creation and
reparse-submission failure messages are fixed strings. -/
theorem c5_amended (t l : List Nat) (p : Platform) (e : String) :
    (p.create_dir_result = Except.error e →
      (create_junction t l p).1
        = some (Except.error ⟨"Failed to create directory for junction point", 2⟩))
    ∧ (p.create_dir_result = Except.ok () → p.open_result = Except.error e →
      (create_junction t l p).1
        = some (Except.error ⟨"Failed to open junction directory: " ++ e, 2⟩)
      ∧ has_substring e.data ("Failed to open junction directory: " ++ e).data = true)
    ∧ (p.create_dir_result = Except.ok () → p.open_result = Except.ok () →
        p.device_result = Except.error e →
      (create_junction t l p).1
        = some (Except.error ⟨"Failed to set reparse point for junction", 2⟩))
    ∧ (create_junction t l p).2.all (fun a => match a with
        | FsAction.symlinkFile _ => false
        | FsAction.hardLink _ => false
        | FsAction.symlinkDir _ => false
        | _ => true) = true := by
  refine ⟨?_, ?_, ?_, ?_⟩
  · intro h
    rw [cj_dir_fail t l p e h]
  · intro h1 h2
    refine ⟨by rw [cj_open_fail t l p e h1 h2], ?_⟩
    rw [string_data_append]
    exact has_substring_append_left _ _
  · intro h1 h2 h3
    rw [cj_device_fail t l p e h1 h2 h3]
  · rcases hcd : p.create_dir_result with e1 | u1
    · rw [cj_dir_fail t l p e1 hcd]; rfl
    · cases u1
      rcases ho : p.open_result with e2 | u2
      · rw [cj_open_fail t l p e2 hcd ho]; rfl
      · cases u2
        rcases hdev : p.device_result with e3 | u3
        · rw [cj_device_fail t l p e3 hcd ho hdev]; rfl
        · cases u3
          rw [cj_all_ok t l p hcd ho hdev]; rfl

/-- Witness for amended C5: a handle-open failure with platform text
"os error 5" yields the wrapped message containing that text. -/
theorem c5_amended_witness :
    (create_junction [100] [99]
      (⟨true, Except.ok (), Except.error "os error 5", Except.ok (),
        Except.ok (), Except.ok (), Except.ok ()⟩ : Platform)).1
      = some (Except.error ⟨"Failed to open junction directory: " ++ "os error 5", 2⟩)
    ∧ has_substring ("os error 5".data)
        (("Failed to open junction directory: " ++ "os error 5").data) = true :=
  (c5_amended [100] [99] _ "os error 5").2.1 rfl rfl

/-- Claim C6: the process exit code is 0 on success, 1 when no or multiple
link-type flags are given, 2 on any junction-specific failure (directory
creation, handle open, or reparse submission), 3 on symbolic-link failure,
4 on hard-link failure, 5 on soft-link failure, and 7 on a non-Windows
platform. -/
theorem c6_exit_codes (o : CliOpts) (p : Platform) :
    (flag_count o ≠ 1 → main_exit o p = some 1)
    ∧ (flag_count o = 1 → p.windows = false → main_exit o p = some 7)
    ∧ (flag_count o = 1 → p.windows = true →
        (o.junction = true →
          (∀ e, p.create_dir_result = Except.error e → main_exit o p = some 2)
          ∧ (p.create_dir_result = Except.ok () →
              ∀ e, p.open_result = Except.error e → main_exit o p = some 2)
          ∧ (p.create_dir_result = Except.ok () → p.open_result = Except.ok () →
              ∀ e, p.device_result = Except.error e → main_exit o p = some 2)
          ∧ (p.create_dir_result = Except.ok () → p.open_result = Except.ok () →
              p.device_result = Except.ok () → main_exit o p = some 0))
        ∧ (o.symbolic = true →
          (∀ e, p.symlink_file_result = Except.error e → main_exit o p = some 3)
          ∧ (p.symlink_file_result = Except.ok () → main_exit o p = some 0))
        ∧ (o.hard = true →
          (∀ e, p.hard_link_result = Except.error e → main_exit o p = some 4)
          ∧ (p.hard_link_result = Except.ok () → main_exit o p = some 0))
        ∧ (o.soft = true →
          (∀ e, p.symlink_dir_result = Except.error e → main_exit o p = some 5)
          ∧ (p.symlink_dir_result = Except.ok () → main_exit o p = some 0))) := by
  refine ⟨?_, ?_, ?_⟩
  · intro h
    rw [main_exit, main_run_flags o p h]
  · intro h1 hw
    obtain ⟨lt, hp⟩ := parse_ok_exists o h1
    simp [main_exit, main_run, hp, create_link, hw]
  · intro h1 hw
    refine ⟨?_, ?_, ?_, ?_⟩
    · intro hj
      have hp := parse_of_junction o h1 hj
      refine ⟨?_, ?_, ?_, ?_⟩
      · intro e he
        simp [main_exit, main_run, hp, create_link, hw,
          cj_dir_fail o.dst o.src p e he]
      · intro hok e he
        simp [main_exit, main_run, hp, create_link, hw,
          cj_open_fail o.dst o.src p e hok he]
      · intro hok1 hok2 e he
        simp [main_exit, main_run, hp, create_link, hw,
          cj_device_fail o.dst o.src p e hok1 hok2 he]
      · intro hok1 hok2 hok3
        simp [main_exit, main_run, hp, create_link, hw,
          cj_all_ok o.dst o.src p hok1 hok2 hok3]
    · intro hy
      have hp := parse_of_symbolic o h1 hy
      refine ⟨?_, ?_⟩
      · intro e he
        simp [main_exit, main_run, hp, create_link, hw, he]
      · intro hok
        simp [main_exit, main_run, hp, create_link, hw, hok]
    · intro hh
      have hp := parse_of_hard o h1 hh
      refine ⟨?_, ?_⟩
      · intro e he
        simp [main_exit, main_run, hp, create_link, hw, he]
      · intro hok
        simp [main_exit, main_run, hp, create_link, hw, hok]
    · intro hs
      have hp := parse_of_soft o h1 hs
      refine ⟨?_, ?_⟩
      · intro e he
        simp [main_exit, main_run, hp, create_link, hw, he]
      · intro hok
        simp [main_exit, main_run, hp, create_link, hw, hok]

/-- Witness for C6: a failing hard-link invocation exits with code 4. -/
theorem c6_exit_codes_witness :
    main_exit (⟨[1], [2], false, true, false, false⟩ : CliOpts)
      (⟨true, Except.ok (), Except.ok (), Except.ok (), Except.ok (),
        Except.error "denied", Except.ok ()⟩ : Platform) = some 4 :=
  (((c6_exit_codes ⟨[1], [2], false, true, false, false⟩
      ⟨true, Except.ok (), Except.ok (), Except.ok (), Except.ok (),
        Except.error "denied", Except.ok ()⟩).2.2 rfl rfl).2.2.1 rfl).1 "denied" rfl

/-- Claim C7: when the device-control call fails after directory creation
succeeded, `create_junction` returns the reparse-point-set failure, the
process exits with code 2, and the trace shows the created directory is
never removed and no reparse data was installed. -/
theorem c7_reparse_fail (src dst : List Nat) (p : Platform) (e : String)
    (hw : p.windows = true) (h1 : p.create_dir_result = Except.ok ())
    (h2 : p.open_result = Except.ok ()) (h3 : p.device_result = Except.error e) :
    (create_junction dst src p).1
      = some (Except.error ⟨"Failed to set reparse point for junction", 2⟩)
    ∧ main_run (⟨src, dst, false, false, false, true⟩ : CliOpts) p
      = (some 2, [FsAction.createDir (utf16_encode src) true,
                  FsAction.openDir src true, FsAction.setReparse false])
    ∧ FsAction.createDir (utf16_encode src) true
        ∈ (main_run (⟨src, dst, false, false, false, true⟩ : CliOpts) p).2
    ∧ (∀ q, FsAction.removeDir q
        ∉ (main_run (⟨src, dst, false, false, false, true⟩ : CliOpts) p).2)
    ∧ FsAction.setReparse true
        ∉ (main_run (⟨src, dst, false, false, false, true⟩ : CliOpts) p).2 := by
  have hc := cj_device_fail dst src p e h1 h2 h3
  have hm : main_run (⟨src, dst, false, false, false, true⟩ : CliOpts) p
      = (some 2, [FsAction.createDir (utf16_encode src) true,
                  FsAction.openDir src true, FsAction.setReparse false]) := by
    simp [main_run, parse_link_type, flag_count, create_link, hw, hc]
  refine ⟨by rw [hc], hm, by rw [hm]; simp, ?_, by rw [hm]; simp⟩
  intro q
  rw [hm]
  simp

/-- Witness for C7 at concrete paths and platform outcomes. -/
theorem c7_reparse_fail_witness :
    (create_junction [100] [99]
      (⟨true, Except.ok (), Except.ok (), Except.error "denied",
        Except.ok (), Except.ok (), Except.ok ()⟩ : Platform)).1
      = some (Except.error ⟨"Failed to set reparse point for junction", 2⟩)
    ∧ main_run (⟨[99], [100], false, false, false, true⟩ : CliOpts)
        (⟨true, Except.ok (), Except.ok (), Except.error "denied",
          Except.ok (), Except.ok (), Except.ok ()⟩ : Platform)
      = (some 2, [FsAction.createDir (utf16_encode [99]) true,
                  FsAction.openDir [99] true, FsAction.setReparse false]) := by
  have h := c7_reparse_fail [99] [100]
    ⟨true, Except.ok (), Except.ok (), Except.error "denied",
      Except.ok (), Except.ok (), Except.ok ()⟩ "denied" rfl rfl rfl rfl
  exact ⟨h.1, h.2.1⟩

/-- Claim C8: supplying more than one link-type flag is rejected during
flag validation with exit code 1, before any filesystem operation — the
trace is empty. -/
theorem c8_multiple_flags (o : CliOpts) (p : Platform) (h : 2 ≤ flag_count o) :
    main_run o p = (some 1, []) :=
  main_run_flags o p (by omega)

/-- Witness for C8: both --soft and --hard given. -/
theorem c8_multiple_flags_witness :
    2 ≤ flag_count (⟨[], [], true, true, false, false⟩ : CliOpts)
    ∧ main_run (⟨[], [], true, true, false, false⟩ : CliOpts)
        (⟨true, Except.ok (), Except.ok (), Except.ok (), Except.ok (),
          Except.ok (), Except.ok ()⟩ : Platform) = (some 1, []) :=
  ⟨by decide, c8_multiple_flags _ _ (by decide)⟩
